import Mathlib

/-!
Verification development for the DXVK swap chain blitter
(src/dxvk/dxvk_swapchain_blitter.h).

The header declares the pipeline key (with its inline hash and equality
functions), the blitter members with their initial values, and the public
interface.  Function bodies that live in the corresponding .cpp translation
unit are modelled from the specification; each such definition carries a
doc comment starting with "Modelled from the spec:".
-/

namespace Dxvk

/-- Vulkan boolean, a 32-bit unsigned integer (0 = VK_FALSE, 1 = VK_TRUE). -/
abbrev VkBool32 := Nat

/-- Vulkan color space enumerant, modelled as its numeric value. -/
abbrev VkColorSpaceKHR := Nat

/-- Vulkan format enumerant, modelled as its numeric value. -/
abbrev VkFormat := Nat

/-- Vulkan sample count flag bits, modelled as the numeric value. -/
abbrev VkSampleCountFlagBits := Nat

def VK_FALSE : VkBool32 := 0

def VK_TRUE : VkBool32 := 1

def VK_COLOR_SPACE_MAX_ENUM_KHR : VkColorSpaceKHR := 0x7FFFFFFF

def VK_SAMPLE_COUNT_FLAG_BITS_MAX_ENUM : VkSampleCountFlagBits := 0x7FFFFFFF

def VK_FORMAT_UNDEFINED : VkFormat := 0

/-- Vulkan 2D extent (width and height in pixels). -/
structure VkExtent2D where
  width : Nat
  height : Nat
deriving DecidableEq, Repr

/-- Vulkan 2D offset. -/
structure VkOffset2D where
  x : Int
  y : Int
deriving DecidableEq, Repr

/-- Vulkan 2D rectangle: offset plus extent. -/
structure VkRect2D where
  offset : VkOffset2D
  extent : VkExtent2D
deriving DecidableEq, Repr

/-- Gamma control point: four 16-bit channels (header lines 17-19). -/
structure DxvkGammaCp where
  r : Nat
  g : Nat
  b : Nat
  a : Nat
deriving DecidableEq, Repr

/-- Swap chain blitter pipeline key (header lines 27-72): the eight fields
used to look up specific pipelines. -/
structure DxvkSwapchainPipelineKey where
  srcSpace : VkColorSpaceKHR
  srcSamples : VkSampleCountFlagBits
  srcIsSrgb : VkBool32
  dstSpace : VkColorSpaceKHR
  dstFormat : VkFormat
  needsBlit : VkBool32
  needsGamma : VkBool32
  needsBlending : VkBool32
deriving DecidableEq, Repr

/-- Modelled from the spec: DxvkHashState (declared in a header that is not
part of this fragment) accumulates the hashes added to it; the spec only
requires the result to be a pure deterministic function of the values added,
so it is modelled as a rotate-and-xor fold on a 64-bit accumulator. -/
def DxvkHashState.add (st h : Nat) : Nat :=
  ((st <<< 8) % 2 ^ 64 ||| st >>> 56) ^^^ h

/-- Hash of a pipeline key (header lines 49-60): adds the eight fields, as
32-bit values, to a fresh DxvkHashState in declaration order. -/
def DxvkSwapchainPipelineKey.hash (k : DxvkSwapchainPipelineKey) : Nat :=
  List.foldl DxvkHashState.add 0
    [k.srcSpace, k.srcSamples, k.srcIsSrgb, k.dstSpace, k.dstFormat,
     k.needsBlit, k.needsGamma, k.needsBlending]

/-- Equality of pipeline keys (header lines 62-71): conjunction of the
field-wise comparisons, in declaration order. -/
def DxvkSwapchainPipelineKey.eq (k other : DxvkSwapchainPipelineKey) : Bool :=
  k.srcSpace == other.srcSpace
    && k.srcSamples == other.srcSamples
    && k.srcIsSrgb == other.srcIsSrgb
    && k.dstSpace == other.dstSpace
    && k.dstFormat == other.dstFormat
    && k.needsBlit == other.needsBlit
    && k.needsGamma == other.needsGamma
    && k.needsBlending == other.needsBlending

theorem DxvkSwapchainPipelineKey.eq_iff (k1 k2 : DxvkSwapchainPipelineKey) :
    k1.eq k2 = true ↔ k1 = k2 := by
  cases k1
  cases k2
  simp [DxvkSwapchainPipelineKey.eq, DxvkSwapchainPipelineKey.mk.injEq,
    and_assoc]

theorem DxvkSwapchainPipelineKey.eq_self (k : DxvkSwapchainPipelineKey) :
    k.eq k = true :=
  (DxvkSwapchainPipelineKey.eq_iff k k).mpr rfl

/-- Claim C2: for all pipeline keys k1 and k2, k1.eq k2 returns true if and
only if all eight fields (srcSpace, srcSamples, srcIsSrgb, dstSpace,
dstFormat, needsBlit, needsGamma, needsBlending) are pairwise equal; in
particular eq returns false whenever any one field differs. -/
theorem pipelineKey_eq_iff_all_fields (k1 k2 : DxvkSwapchainPipelineKey) :
    k1.eq k2 = true ↔
      (k1.srcSpace = k2.srcSpace ∧ k1.srcSamples = k2.srcSamples ∧
       k1.srcIsSrgb = k2.srcIsSrgb ∧ k1.dstSpace = k2.dstSpace ∧
       k1.dstFormat = k2.dstFormat ∧ k1.needsBlit = k2.needsBlit ∧
       k1.needsGamma = k2.needsGamma ∧ k1.needsBlending = k2.needsBlending) := by
  simp [DxvkSwapchainPipelineKey.eq, and_assoc]

/-- Claim C3: for all pipeline keys k1 and k2, if k1.eq k2 returns true then
k1.hash = k2.hash; hash is a pure function of the key alone. -/
theorem pipelineKey_eq_implies_hash_eq (k1 k2 : DxvkSwapchainPipelineKey)
    (h : k1.eq k2 = true) : k1.hash = k2.hash := by
  rw [(DxvkSwapchainPipelineKey.eq_iff k1 k2).mp h]

/-- Concrete instance of claim C3 at a pair of equal keys. -/
theorem pipelineKey_eq_implies_hash_eq_witness :
    DxvkSwapchainPipelineKey.eq ⟨2, 1, 0, 2, 44, 0, 1, 0⟩ ⟨2, 1, 0, 2, 44, 0, 1, 0⟩ = true ∧
      DxvkSwapchainPipelineKey.hash ⟨2, 1, 0, 2, 44, 0, 1, 0⟩ =
        DxvkSwapchainPipelineKey.hash ⟨2, 1, 0, 2, 44, 0, 1, 0⟩ :=
  ⟨by decide, pipelineKey_eq_implies_hash_eq _ _ (by decide)⟩

/-- Image view: the per-view data the blitter reads when classifying a
present request (format, sRGB-ness of the format, sample count, extent). -/
structure DxvkImageView where
  format : VkFormat
  formatIsSrgb : VkBool32
  sampleCount : VkSampleCountFlagBits
  extent : VkExtent2D
deriving DecidableEq, Repr

/-- Presentation sequencer state (spec section 4.2): Idle or Presenting. -/
inductive PresentState where
  | idle
  | presenting
deriving DecidableEq, Repr

/-- Usage errors of the begin/end present state machine (spec section 7). -/
inductive UsageError where
  | notPresenting
  | alreadyPresenting
deriving DecidableEq, Repr

/-- Specialization constants (header lines 163-170). -/
structure SpecConstants where
  sampleCount : VkSampleCountFlagBits
  gammaBound : VkBool32
  srcSpace : VkColorSpaceKHR
  srcIsSrgb : VkBool32
  dstSpace : VkColorSpaceKHR
  dstIsSrgb : VkBool32
deriving DecidableEq, Repr

/-- Blitter state: the members declared in header lines 191-209 that the
claims are about, together with the sequencer state of spec section 4.2.
Pipelines are an association list from key to an opaque pipeline handle;
the dirty flags record a pending staging upload. -/
structure DxvkSwapchainBlitter where
  gammaCpCount : Nat
  gammaCpData : List DxvkGammaCp
  gammaDirty : Bool
  cursorTexture : Option (VkExtent2D × VkFormat)
  cursorRect : VkRect2D
  cursorDirty : Bool
  pipelines : List (DxvkSwapchainPipelineKey × Nat)
  nextPipelineHandle : Nat
  presentState : PresentState
deriving DecidableEq, Repr

/-- Freshly constructed blitter: the member initializers of header lines
195 (m_gammaCpCount = 0) and 200 (m_cursorRect = { }), an empty pipeline
map, and the Idle sequencer state. -/
def initBlitter : DxvkSwapchainBlitter where
  gammaCpCount := 0
  gammaCpData := []
  gammaDirty := false
  cursorTexture := none
  cursorRect := ⟨⟨0, 0⟩, ⟨0, 0⟩⟩
  cursorDirty := false
  pipelines := []
  nextPipelineHandle := 0
  presentState := PresentState.idle

/-- Modelled from the spec: setGammaRamp (body in the .cpp unit, not in this
fragment).  A non-zero control point count stores the ramp and schedules an
upload; count zero marks gamma inactive and releases the ramp. -/
def setGammaRamp (s : DxvkSwapchainBlitter) (cpCount : Nat)
    (cpData : List DxvkGammaCp) : DxvkSwapchainBlitter :=
  if cpCount ≠ 0 then
    { s with gammaCpCount := cpCount, gammaCpData := cpData.take cpCount,
             gammaDirty := true }
  else
    { s with gammaCpCount := 0, gammaCpData := [], gammaDirty := false }

/-- Modelled from the spec: setCursorTexture (body in the .cpp unit, not in
this fragment).  Replaces the cursor texture wholesale and schedules an
upload through the staging buffer. -/
def setCursorTexture (s : DxvkSwapchainBlitter) (extent : VkExtent2D)
    (format : VkFormat) : DxvkSwapchainBlitter :=
  { s with cursorTexture := some (extent, format), cursorDirty := true }

/-- Modelled from the spec: setCursorPos (body in the .cpp unit, not in this
fragment).  Only updates the placement rectangle; no re-upload. -/
def setCursorPos (s : DxvkSwapchainBlitter) (rect : VkRect2D) :
    DxvkSwapchainBlitter :=
  { s with cursorRect := rect }

/-- Modelled from the spec: first entry of the pipeline map whose stored key
compares eq to the requested key. -/
def findPipeline : List (DxvkSwapchainPipelineKey × Nat) →
    DxvkSwapchainPipelineKey → Option Nat
  | [], _ => none
  | e :: rest, key => if e.1.eq key then some e.2 else findPipeline rest key

/-- Modelled from the spec: getPipeline (body in the .cpp unit, not in this
fragment) is a lookup-or-insert on the pipeline map m_pipelines: an existing
entry for the key is returned as is; otherwise a pipeline is compiled
(modelled as taking the next fresh handle), inserted and returned. -/
def getPipeline (s : DxvkSwapchainBlitter) (key : DxvkSwapchainPipelineKey) :
    Nat × DxvkSwapchainBlitter :=
  match findPipeline s.pipelines key with
  | some p => (p, s)
  | none =>
    (s.nextPipelineHandle,
     { s with pipelines := (key, s.nextPipelineHandle) :: s.pipelines,
              nextPipelineHandle := s.nextPipelineHandle + 1 })

/-- Modelled from the spec: needsBlit is set when the source rectangle
dimensions or offset differ from the destination rectangle, or when the
source and destination image extents differ (spec section 4.2). -/
def computeNeedsBlit (srcView dstView : DxvkImageView)
    (srcRect dstRect : VkRect2D) : VkBool32 :=
  if srcRect.extent ≠ dstRect.extent ∨ srcRect.offset ≠ dstRect.offset ∨
      srcView.extent ≠ dstView.extent then VK_TRUE else VK_FALSE

/-- Modelled from the spec: the pipeline key derived by beginPresent from
the request and from the OverlayState snapshot (spec section 4.2):
needsGamma reflects whether a gamma ramp is currently active, needsBlending
whether the cursor overlay is enabled. -/
def deriveKey (s : DxvkSwapchainBlitter) (dstView : DxvkImageView)
    (dstColorSpace : VkColorSpaceKHR) (dstRect : VkRect2D)
    (srcView : DxvkImageView) (srcColorSpace : VkColorSpaceKHR)
    (srcRect : VkRect2D) : DxvkSwapchainPipelineKey where
  srcSpace := srcColorSpace
  srcSamples := srcView.sampleCount
  srcIsSrgb := srcView.formatIsSrgb
  dstSpace := dstColorSpace
  dstFormat := dstView.format
  needsBlit := computeNeedsBlit srcView dstView srcRect dstRect
  needsGamma := if s.gammaCpCount ≠ 0 then VK_TRUE else VK_FALSE
  needsBlending := if s.cursorTexture.isSome then VK_TRUE else VK_FALSE

/-- Modelled from the spec: the specialization constants a pipeline is
compiled with (header lines 163-170; values per spec section 4.1): sample
count, gamma bound flag, both color spaces and both sRGB flags. -/
def specConstantsFor (key : DxvkSwapchainPipelineKey) (dstIsSrgb : VkBool32) :
    SpecConstants where
  sampleCount := key.srcSamples
  gammaBound := key.needsGamma
  srcSpace := key.srcSpace
  srcIsSrgb := key.srcIsSrgb
  dstSpace := key.dstSpace
  dstIsSrgb := dstIsSrgb

/-- Fragment-stage color operation: decode an input encoding to linear, or
encode linear to an output encoding. -/
inductive ColorOp where
  | decodeTransfer (space : VkColorSpaceKHR) (isSrgb : VkBool32)
  | encodeTransfer (space : VkColorSpaceKHR) (isSrgb : VkBool32)
deriving DecidableEq, Repr

/-- Modelled from the spec: the conversion work the fragment stage schedules
(spec section 4.2): if the source and destination color spaces differ, the
source encoding is decoded to linear and re-encoded for the destination,
using the sRGB flags; if they match, no conversion work is scheduled. -/
def colorConversionOps (sc : SpecConstants) : List ColorOp :=
  if sc.srcSpace = sc.dstSpace then []
  else [ColorOp.decodeTransfer sc.srcSpace sc.srcIsSrgb,
        ColorOp.encodeTransfer sc.dstSpace sc.dstIsSrgb]

/-- Vulkan sampler filter mode. -/
inductive VkFilter where
  | nearest
  | linear
deriving DecidableEq, Repr

/-- Modelled from the spec: the cursor sampling filter chosen at draw time
(spec sections 4.2 and header lines 151-159): point (nearest) filtering
exactly when the cursor rectangle extent equals the cursor texture extent,
linear filtering otherwise. -/
def cursorFilter (texExtent rectExtent : VkExtent2D) : VkFilter :=
  if rectExtent = texExtent then VkFilter.nearest else VkFilter.linear

/-- Modelled from the spec: beginPresent (body in the .cpp unit, not in this
fragment).  Valid only from Idle; derives the pipeline key from the request
and the OverlayState snapshot, resolves the pipeline through the cache,
performs pending uploads, and moves to Presenting.  A nested beginPresent
is rejected as a usage error. -/
def beginPresent (s : DxvkSwapchainBlitter) (dstView : DxvkImageView)
    (dstColorSpace : VkColorSpaceKHR) (dstRect : VkRect2D)
    (srcView : DxvkImageView) (srcColorSpace : VkColorSpaceKHR)
    (srcRect : VkRect2D) : Except UsageError (Nat × DxvkSwapchainBlitter) :=
  match s.presentState with
  | PresentState.presenting => Except.error UsageError.alreadyPresenting
  | PresentState.idle =>
    let key := deriveKey s dstView dstColorSpace dstRect srcView srcColorSpace srcRect
    let r := getPipeline s key
    Except.ok (r.1, { r.2 with presentState := PresentState.presenting,
                               gammaDirty := false, cursorDirty := false })

/-- Modelled from the spec: endPresent (body in the .cpp unit, not in this
fragment).  Valid only from Presenting; finalizes the image and returns to
Idle.  An unmatched endPresent is rejected as a usage error. -/
def endPresent (s : DxvkSwapchainBlitter) : Except UsageError DxvkSwapchainBlitter :=
  match s.presentState with
  | PresentState.idle => Except.error UsageError.notPresenting
  | PresentState.presenting => Except.ok { s with presentState := PresentState.idle }

/-- One operation of the blitter interface. -/
inductive BlitterOp where
  | gammaRamp (cpCount : Nat) (cpData : List DxvkGammaCp)
  | cursorTexture (extent : VkExtent2D) (format : VkFormat)
  | cursorPos (rect : VkRect2D)
  | present (dstView : DxvkImageView) (dstColorSpace : VkColorSpaceKHR)
      (dstRect : VkRect2D) (srcView : DxvkImageView)
      (srcColorSpace : VkColorSpaceKHR) (srcRect : VkRect2D)
  | finishPresent
deriving DecidableEq, Repr

/-- Applies one operation to the blitter state; a begin/end present call
rejected as a usage error leaves the state unchanged (defensive reject,
spec section 7). -/
def step (s : DxvkSwapchainBlitter) : BlitterOp → DxvkSwapchainBlitter
  | BlitterOp.gammaRamp n d => setGammaRamp s n d
  | BlitterOp.cursorTexture e f => setCursorTexture s e f
  | BlitterOp.cursorPos r => setCursorPos s r
  | BlitterOp.present dv dcs dr sv scs sr =>
    match beginPresent s dv dcs dr sv scs sr with
    | Except.ok r => r.2
    | Except.error _ => s
  | BlitterOp.finishPresent =>
    match endPresent s with
    | Except.ok s1 => s1
    | Except.error _ => s

/-- Runs a sequence of operations from a given state. -/
def run (s : DxvkSwapchainBlitter) : List BlitterOp → DxvkSwapchainBlitter
  | [] => s
  | op :: rest => run (step s op) rest

/-- Number of entries of the pipeline map whose key compares eq to the
given key. -/
def countKey (l : List (DxvkSwapchainPipelineKey × Nat))
    (k : DxvkSwapchainPipelineKey) : Nat :=
  (l.filter fun e => e.1.eq k).length

theorem countKey_cons (e : DxvkSwapchainPipelineKey × Nat)
    (l : List (DxvkSwapchainPipelineKey × Nat)) (k : DxvkSwapchainPipelineKey) :
    countKey (e :: l) k = (if e.1.eq k then 1 else 0) + countKey l k := by
  simp only [countKey, List.filter_cons]
  cases h : e.1.eq k <;> simp [h, Nat.add_comm]

theorem countKey_of_findPipeline_none
    (l : List (DxvkSwapchainPipelineKey × Nat)) (k : DxvkSwapchainPipelineKey)
    (h : findPipeline l k = none) : countKey l k = 0 := by
  induction l with
  | nil => simp [countKey]
  | cons e rest ih =>
    rw [countKey_cons]
    cases he : e.1.eq k with
    | true => simp [findPipeline, he] at h
    | false =>
      simp only [he, if_neg Bool.false_ne_true, Nat.zero_add]
      exact ih (by simpa [findPipeline, he] using h)

theorem getPipeline_preserves_atMostOne (s : DxvkSwapchainBlitter)
    (k : DxvkSwapchainPipelineKey) (h : ∀ k2, countKey s.pipelines k2 ≤ 1) :
    ∀ k2, countKey (getPipeline s k).2.pipelines k2 ≤ 1 := by
  intro k2
  cases hf : findPipeline s.pipelines k with
  | some p => simp only [getPipeline, hf]; exact h k2
  | none =>
    simp only [getPipeline, hf]
    rw [countKey_cons]
    by_cases he : k.eq k2 = true
    · have hk := (DxvkSwapchainPipelineKey.eq_iff k k2).mp he
      subst hk
      simp [he, countKey_of_findPipeline_none s.pipelines k hf]
    · rw [Bool.not_eq_true] at he
      simp only [he, if_neg Bool.false_ne_true, Nat.zero_add]
      exact h k2

theorem step_preserves_atMostOne (s : DxvkSwapchainBlitter) (op : BlitterOp)
    (h : ∀ k2, countKey s.pipelines k2 ≤ 1) :
    ∀ k2, countKey (step s op).pipelines k2 ≤ 1 := by
  cases op with
  | gammaRamp n d =>
    intro k2
    simp only [step, setGammaRamp]
    split <;> exact h k2
  | cursorTexture e f => intro k2; exact h k2
  | cursorPos r => intro k2; exact h k2
  | present dv dcs dr sv scs sr =>
    intro k2
    cases hp : s.presentState with
    | presenting => simp only [step, beginPresent, hp]; exact h k2
    | idle =>
      simp only [step, beginPresent, hp]
      exact getPipeline_preserves_atMostOne s _ h k2
  | finishPresent =>
    intro k2
    cases hp : s.presentState with
    | presenting => simp only [step, endPresent, hp]; exact h k2
    | idle => simp only [step, endPresent, hp]; exact h k2

theorem run_preserves_atMostOne (ops : List BlitterOp) :
    ∀ s : DxvkSwapchainBlitter, (∀ k2, countKey s.pipelines k2 ≤ 1) →
      ∀ k2, countKey (run s ops).pipelines k2 ≤ 1 := by
  induction ops with
  | nil => intro s h; exact h
  | cons op rest ih =>
    intro s h
    exact ih (step s op) (step_preserves_atMostOne s op h)

/-- Claim C1: repeated getPipeline lookups with the same key value return the
identical pipeline (and leave the cache unchanged), and over any lifetime of
operations starting from a fresh blitter the cache holds at most one entry
per key value. -/
theorem getPipeline_cached_unique :
    (∀ (s : DxvkSwapchainBlitter) (k : DxvkSwapchainPipelineKey),
        getPipeline (getPipeline s k).2 k = getPipeline s k)
    ∧ (∀ (ops : List BlitterOp) (k : DxvkSwapchainPipelineKey),
        countKey (run initBlitter ops).pipelines k ≤ 1) := by
  constructor
  · intro s k
    cases hf : findPipeline s.pipelines k with
    | some p => simp [getPipeline, hf]
    | none =>
      simp [getPipeline, hf, findPipeline, DxvkSwapchainPipelineKey.eq_self]
  · intro ops k
    exact run_preserves_atMostOne ops initBlitter
      (by intro k2; simp [initBlitter, countKey]) k

theorem gammaCpCount_getPipeline (s : DxvkSwapchainBlitter)
    (k : DxvkSwapchainPipelineKey) :
    (getPipeline s k).2.gammaCpCount = s.gammaCpCount := by
  cases hf : findPipeline s.pipelines k <;> simp [getPipeline, hf]

theorem gammaCpCount_step_zero (s : DxvkSwapchainBlitter) (op : BlitterOp)
    (h0 : s.gammaCpCount = 0)
    (hop : ∀ n d, op = BlitterOp.gammaRamp n d → n = 0) :
    (step s op).gammaCpCount = 0 := by
  cases op with
  | gammaRamp n d =>
    have hn := hop n d rfl
    subst hn
    simp [step, setGammaRamp]
  | cursorTexture e f => exact h0
  | cursorPos r => exact h0
  | present dv dcs dr sv scs sr =>
    cases hp : s.presentState with
    | presenting => simpa only [step, beginPresent, hp] using h0
    | idle =>
      simp only [step, beginPresent, hp]
      simp [gammaCpCount_getPipeline, h0]
  | finishPresent =>
    cases hp : s.presentState with
    | presenting => simpa only [step, endPresent, hp] using h0
    | idle => simpa only [step, endPresent, hp] using h0

theorem gammaCpCount_run_zero (ops : List BlitterOp)
    (hops : ∀ n d, BlitterOp.gammaRamp n d ∈ ops → n = 0) :
    ∀ s : DxvkSwapchainBlitter, s.gammaCpCount = 0 →
      (run s ops).gammaCpCount = 0 := by
  induction ops with
  | nil => intro s h0; exact h0
  | cons op rest ih =>
    intro s h0
    have hstep := gammaCpCount_step_zero s op h0
      (fun n d he => hops n d (by rw [he] at *; exact List.mem_cons_self _ _))
    exact ih (fun n d hm => hops n d (List.mem_cons_of_mem _ hm)) (step s op) hstep

/-- Claim C4: after setGammaRamp with control point count 0 (from any prior
state, including one with a non-zero ramp), any pipeline key subsequently
derived by beginPresent has needsGamma = VK_FALSE, as long as no intervening
setGammaRamp re-enables a non-zero ramp. -/
theorem setGammaRampZero_disablesGamma (s : DxvkSwapchainBlitter)
    (d : List DxvkGammaCp) (ops : List BlitterOp)
    (hops : ∀ n cps, BlitterOp.gammaRamp n cps ∈ ops → n = 0)
    (dv : DxvkImageView) (dcs : VkColorSpaceKHR) (dr : VkRect2D)
    (sv : DxvkImageView) (scs : VkColorSpaceKHR) (sr : VkRect2D) :
    (deriveKey (run (setGammaRamp s 0 d) ops) dv dcs dr sv scs sr).needsGamma
      = VK_FALSE := by
  have h0 : (setGammaRamp s 0 d).gammaCpCount = 0 := by simp [setGammaRamp]
  have hrun := gammaCpCount_run_zero ops hops (setGammaRamp s 0 d) h0
  simp [deriveKey, hrun]

/-- Sample image view used by concrete witnesses. -/
def sampleView : DxvkImageView := ⟨44, VK_FALSE, 1, ⟨800, 600⟩⟩

/-- Sample rectangle used by concrete witnesses. -/
def sampleRect : VkRect2D := ⟨⟨0, 0⟩, ⟨800, 600⟩⟩

/-- Sample three-point gamma ramp used by concrete witnesses. -/
def sampleRamp : List DxvkGammaCp :=
  [⟨0, 0, 0, 0⟩, ⟨100, 100, 100, 0⟩, ⟨65535, 65535, 65535, 0⟩]

/-- Concrete instance of claim C4: a non-zero ramp followed by a zero ramp
yields a key with gamma disabled. -/
theorem setGammaRampZero_disablesGamma_witness :
    (deriveKey (run (setGammaRamp (setGammaRamp initBlitter 3 sampleRamp) 0 []) [])
        sampleView 0 sampleRect sampleView 0 sampleRect).needsGamma = VK_FALSE :=
  setGammaRampZero_disablesGamma (setGammaRamp initBlitter 3 sampleRamp) [] []
    (fun _ _ hm => absurd hm (List.not_mem_nil _))
    sampleView 0 sampleRect sampleView 0 sampleRect

/-- Claim C5: endPresent from Idle is rejected with an explicit usage error,
beginPresent from Presenting (nested present) is rejected with an explicit
usage error, and a well-formed beginPresent/endPresent pair moves
Idle to Presenting and back to Idle. -/
theorem presentStateMachine :
    (∀ s : DxvkSwapchainBlitter, s.presentState = PresentState.idle →
        endPresent s = Except.error UsageError.notPresenting)
    ∧ (∀ (s : DxvkSwapchainBlitter) (dv : DxvkImageView) (dcs : VkColorSpaceKHR)
        (dr : VkRect2D) (sv : DxvkImageView) (scs : VkColorSpaceKHR) (sr : VkRect2D),
        s.presentState = PresentState.presenting →
          beginPresent s dv dcs dr sv scs sr =
            Except.error UsageError.alreadyPresenting)
    ∧ (∀ (s : DxvkSwapchainBlitter) (dv : DxvkImageView) (dcs : VkColorSpaceKHR)
        (dr : VkRect2D) (sv : DxvkImageView) (scs : VkColorSpaceKHR) (sr : VkRect2D),
        s.presentState = PresentState.idle →
          ∃ p s1, beginPresent s dv dcs dr sv scs sr = Except.ok (p, s1) ∧
            s1.presentState = PresentState.presenting ∧
            ∃ s2, endPresent s1 = Except.ok s2 ∧
              s2.presentState = PresentState.idle) := by
  refine ⟨?_, ?_, ?_⟩
  · intro s h
    simp [endPresent, h]
  · intro s dv dcs dr sv scs sr h
    simp [beginPresent, h]
  · intro s dv dcs dr sv scs sr h
    refine ⟨(getPipeline s (deriveKey s dv dcs dr sv scs sr)).1,
      { (getPipeline s (deriveKey s dv dcs dr sv scs sr)).2 with
          presentState := PresentState.presenting,
          gammaDirty := false, cursorDirty := false },
      ?_, rfl, ⟨_, rfl, rfl⟩⟩
    simp [beginPresent, h]

/-- Concrete instances of claim C5: an unmatched endPresent on a fresh
blitter errors, a nested beginPresent errors, and a begin/end pair from the
fresh blitter passes through Presenting and returns to Idle. -/
theorem presentStateMachine_witness :
    endPresent initBlitter = Except.error UsageError.notPresenting ∧
    beginPresent { initBlitter with presentState := PresentState.presenting }
        sampleView 0 sampleRect sampleView 0 sampleRect =
      Except.error UsageError.alreadyPresenting ∧
    (∃ p s1, beginPresent initBlitter sampleView 0 sampleRect sampleView 0
          sampleRect = Except.ok (p, s1) ∧
        s1.presentState = PresentState.presenting ∧
        ∃ s2, endPresent s1 = Except.ok s2 ∧
          s2.presentState = PresentState.idle) :=
  ⟨presentStateMachine.1 initBlitter rfl,
   presentStateMachine.2.1 { initBlitter with presentState := PresentState.presenting }
     sampleView 0 sampleRect sampleView 0 sampleRect rfl,
   presentStateMachine.2.2 initBlitter sampleView 0 sampleRect sampleView 0
     sampleRect rfl⟩

/-- Claim C6: a present request whose source and destination color spaces
are equal derives spec constants under which the fragment stage schedules no
conversion work, whatever the sRGB flags of the two formats; and conversion
work is scheduled exactly when the two color spaces differ. -/
theorem colorSpaceEqual_noConversion :
    (∀ (s : DxvkSwapchainBlitter) (dv : DxvkImageView) (cs : VkColorSpaceKHR)
        (dr : VkRect2D) (sv : DxvkImageView) (sr : VkRect2D) (b : VkBool32),
        colorConversionOps (specConstantsFor (deriveKey s dv cs dr sv cs sr) b)
          = [])
    ∧ (∀ sc : SpecConstants,
        colorConversionOps sc = [] ↔ sc.srcSpace = sc.dstSpace) := by
  constructor
  · intro s dv cs dr sv sr b
    simp [colorConversionOps, specConstantsFor, deriveKey]
  · intro sc
    unfold colorConversionOps
    split <;> simp_all

/-- Claim C7: cursor sampling uses point (nearest) filtering exactly when
the cursor rectangle extent equals the cursor texture extent and linear
filtering otherwise (32x32 texture with 32x32 rect gives point, with 64x64
rect gives linear), and the choice is not part of the cached pipeline key:
changing the cursor rectangle never changes the derived key. -/
theorem cursorFilter_rule :
    (∀ texExtent rectExtent : VkExtent2D,
        cursorFilter texExtent rectExtent = VkFilter.nearest ↔
          rectExtent = texExtent)
    ∧ (∀ texExtent rectExtent : VkExtent2D,
        cursorFilter texExtent rectExtent = VkFilter.linear ↔
          rectExtent ≠ texExtent)
    ∧ cursorFilter ⟨32, 32⟩ ⟨32, 32⟩ = VkFilter.nearest
    ∧ cursorFilter ⟨32, 32⟩ ⟨64, 64⟩ = VkFilter.linear
    ∧ (∀ (s : DxvkSwapchainBlitter) (rect : VkRect2D) (dv : DxvkImageView)
        (dcs : VkColorSpaceKHR) (dr : VkRect2D) (sv : DxvkImageView)
        (scs : VkColorSpaceKHR) (sr : VkRect2D),
        deriveKey (setCursorPos s rect) dv dcs dr sv scs sr =
          deriveKey s dv dcs dr sv scs sr) := by
  refine ⟨?_, ?_, by decide, by decide, ?_⟩
  · intro texExtent rectExtent
    unfold cursorFilter
    split <;> simp_all
  · intro texExtent rectExtent
    unfold cursorFilter
    split <;> simp_all
  · intro s rect dv dcs dr sv scs sr
    rfl

/-- Claim C8: setCursorPos updates only the cursor placement rectangle; the
cursor texture, its pending-upload flag, the gamma state, the pipeline cache
and the sequencer state are all unchanged, and no upload is triggered. -/
theorem setCursorPos_onlyRect (s : DxvkSwapchainBlitter) (rect : VkRect2D) :
    (setCursorPos s rect).cursorRect = rect ∧
    (setCursorPos s rect).cursorTexture = s.cursorTexture ∧
    (setCursorPos s rect).cursorDirty = s.cursorDirty ∧
    (setCursorPos s rect).gammaCpCount = s.gammaCpCount ∧
    (setCursorPos s rect).gammaCpData = s.gammaCpData ∧
    (setCursorPos s rect).gammaDirty = s.gammaDirty ∧
    (setCursorPos s rect).pipelines = s.pipelines ∧
    (setCursorPos s rect).nextPipelineHandle = s.nextPipelineHandle ∧
    (setCursorPos s rect).presentState = s.presentState := by
  refine ⟨rfl, rfl, rfl, rfl, rfl, rfl, rfl, rfl, rfl⟩

/-- Claim C10: a freshly constructed blitter has gamma control point count
zero and the zero cursor rectangle, so the first pipeline key derived by
beginPresent has needsGamma = VK_FALSE and needsBlending = VK_FALSE. -/
theorem initBlitter_noGammaNoBlending :
    initBlitter.gammaCpCount = 0 ∧
    initBlitter.cursorRect = ⟨⟨0, 0⟩, ⟨0, 0⟩⟩ ∧
    (∀ (dv : DxvkImageView) (dcs : VkColorSpaceKHR) (dr : VkRect2D)
        (sv : DxvkImageView) (scs : VkColorSpaceKHR) (sr : VkRect2D),
        (deriveKey initBlitter dv dcs dr sv scs sr).needsGamma = VK_FALSE ∧
        (deriveKey initBlitter dv dcs dr sv scs sr).needsBlending = VK_FALSE) := by
  refine ⟨rfl, rfl, ?_⟩
  intro dv dcs dr sv scs sr
  exact ⟨rfl, rfl⟩

end Dxvk
